import Mathlib

/-!
# Verification of the QorSense sensor-health analysis engine

Shallow embedding of the analysis pipeline of `qorsense_v3`.

The computational core (`backend/analysis.py`, class `SensorAnalyzer`) is not
part of the source tree available here — only its callers
(`backend/main.py`, `backend/api/routes/analytics.py`,
`backend/tasks/analysis_tasks.py`) and its tests
(`backend/tests/test_metrics.py`, `backend/tests/test_api_analytics.py`) are.
Definitions for the missing calculators are therefore modelled from the
specification (marked `Modelled from the spec:`); the route-level logic
(insufficient-data branches, the inline duplicate metric path with
`np.std(clean_data)`, the newest-first fetch followed by `reversed(...)`)
is embedded directly from the Python files under `src/backend`.

Numbers are represented by `ℚ`; irrational primitives (square root,
base-10 logarithm) are abstracted into a `NumOps` record so that every
definition stays executable, with the properties a real implementation
satisfies taken as explicit hypotheses where a theorem needs them.
-/

/-- Abstract numeric primitives (square root and base-10 logarithm) used by
the calculators; real code uses floating-point `sqrt`/`log10`. -/
structure NumOps where
  sqrt : ℚ → ℚ
  log10 : ℚ → ℚ

/-- Placeholder instantiation of the numeric primitives, used to evaluate
the model on concrete inputs where the claim does not depend on the
analytic properties of `sqrt`/`log10`. -/
def idOps : NumOps := { sqrt := id, log10 := id }

/-- Arithmetic mean of a series (0 for the empty series, since `q / 0 = 0`
in `ℚ`). Embeds `np.mean`. -/
def listMean (xs : List ℚ) : ℚ := xs.sum / xs.length

/-- Mean of the index axis `0, 1, …, n-1`, i.e. `(n-1)/2`. -/
def idxMean (xs : List ℚ) : ℚ := ((xs.length : ℚ) - 1) / 2

/-- Centered second moment of the index axis: `Σ (i - idxMean)²`. -/
def sxxOf (xs : List ℚ) : ℚ :=
  ∑ i ∈ Finset.range xs.length, ((i : ℚ) - idxMean xs) ^ 2

/-- Centered cross moment of index and value: `Σ (i - idxMean)(x_i - mean)`. -/
def sxyOf (xs : List ℚ) : ℚ :=
  ∑ i ∈ Finset.range xs.length, ((i : ℚ) - idxMean xs) * (xs.getD i 0 - listMean xs)

/-- Centered second moment of the values: `Σ (x_i - mean)²`. -/
def syyOf (xs : List ℚ) : ℚ :=
  ∑ i ∈ Finset.range xs.length, (xs.getD i 0 - listMean xs) ^ 2

/-- Population variance of the series itself: the square of
`float(np.std(clean_data))` as computed inline in `backend/main.py` and in
`run_background_analysis` of `backend/api/routes/analytics.py`. -/
def npVar (xs : List ℚ) : ℚ := syyOf xs / xs.length

/-- Modelled from the spec: ordinary least-squares regression coefficient of
value against sample index (`calc_slope` of the missing
`backend/analysis.py`). `q / 0 = 0` makes the degenerate short series give
slope 0. -/
def calc_slope (xs : List ℚ) : ℚ := sxyOf xs / sxxOf xs

/-- Modelled from the spec: mean deviation from the zero reference
(`calc_bias` of the missing `backend/analysis.py`); the test suite expects
a centered sinusoid to have bias near 0. -/
def calc_bias (xs : List ℚ) : ℚ := listMean xs

/-- Variance of the residual after subtracting the fitted least-squares
line `intercept + slope · i` (with `intercept = mean - slope · idxMean`). -/
def resVar (xs : List ℚ) : ℚ :=
  (∑ i ∈ Finset.range xs.length,
    ((xs.getD i 0 - listMean xs) - calc_slope xs * ((i : ℚ) - idxMean xs)) ^ 2) /
    xs.length

/-- Variance of the index axis, `sxx / n`. -/
def idxVar (xs : List ℚ) : ℚ := sxxOf xs / xs.length

/-- Maximum of a series (0 for the empty series). -/
def listMax (xs : List ℚ) : ℚ := xs.foldr max 0

/-- Minimum of a series (0 for the empty series). -/
def listMin (xs : List ℚ) : ℚ := xs.foldr min 0

/-- Modelled from the spec: signal amplitude, half of the series range. -/
def amplitude (xs : List ℚ) : ℚ := (listMax xs - listMin xs) / 2

/-- Threshold under which the residual variance counts as "approximately
zero" for the SNR sentinel. -/
def snrVarEps : ℚ := 1 / 1000000000000

/-- Sentinel ceiling for the signal-to-noise ratio in dB. -/
def snrCeiling : ℚ := 100

/-- Modelled from the spec: `calc_snr_db` of the missing
`backend/analysis.py`. `noise_std` is the standard deviation of the
residual after removing the linear fit; `snr_db = 20·log10(amplitude /
noise_std)` with the sentinel ceiling 100 dB when the noise is
approximately zero. -/
def calc_snr_db (ops : NumOps) (xs : List ℚ) : ℚ :=
  if resVar xs < snrVarEps then snrCeiling
  else 20 * ops.log10 (amplitude xs / ops.sqrt (resVar xs))

/-- Lag-1 phase portrait of a series: pairs `(x_{i}, x_{i+1})`. -/
def lagPoints (xs : List ℚ) : List (ℚ × ℚ) := xs.dropLast.zip xs.tail

/-- Cross product term of the shoelace formula for two points. -/
def crossTerm (p q : ℚ × ℚ) : ℚ := p.1 * q.2 - q.1 * p.2

/-- Signed area of the closed polygon through `pts` via the shoelace
formula (the last point connects back to the first). -/
def shoelace (pts : List (ℚ × ℚ)) : ℚ :=
  (∑ k ∈ Finset.range pts.length,
    crossTerm (pts.getD k (0, 0)) (pts.getD ((k + 1) % pts.length) (0, 0))) / 2

/-- Modelled from the spec: `calc_hysteresis` of the missing
`backend/analysis.py`. Embeds the series as a lag-1 phase portrait,
computes the signed loop area via the shoelace formula, normalizes by the
series range (`q / 0 = 0` covers the flat series), and returns the value
together with the two polyline coordinate lists. -/
def calc_hysteresis (xs : List ℚ) : ℚ × List ℚ × List ℚ :=
  (shoelace (lagPoints xs) / (listMax xs - listMin xs), xs.dropLast, xs.tail)

/-- Modelled from the spec: the DFA profile, the cumulative sum of the
mean-centered series. -/
def profile (xs : List ℚ) : List ℚ :=
  (List.range xs.length).map
    (fun k => ∑ j ∈ Finset.range (k + 1), (xs.getD j 0 - listMean xs))

/-- Modelled from the spec: logarithmically spaced DFA window scales,
powers of two times the minimum scale 4, bounded by `n / 4`. -/
def dfaScalesList (n : ℕ) : List ℕ :=
  if n / 4 < 4 then []
  else (List.range (Nat.log2 (n / 4 / 4) + 1)).map (fun i => 4 * 2 ^ i)

/-- Window `w` of the profile at scale `s`: a slice of length `s`. -/
def windowSeg (prof : List ℚ) (s w : ℕ) : List ℚ := (prof.drop (w * s)).take s

/-- Modelled from the spec: a window's detrended fluctuation, the RMS of
the residual after subtracting the local order-1 least-squares trend. -/
def windowRms (ops : NumOps) (prof : List ℚ) (s w : ℕ) : ℚ :=
  ops.sqrt (resVar (windowSeg prof s w))

/-- Modelled from the spec: `F(scale)`, the average of the per-window RMS
over the non-overlapping windows at the given scale. -/
def fluctF (ops : NumOps) (prof : List ℚ) (s : ℕ) : ℚ :=
  (∑ w ∈ Finset.range (prof.length / s), windowRms ops prof s w) /
    (prof.length / s : ℕ)

/-- Mean of the first coordinates of a point list. -/
def ptsMeanX (pts : List (ℚ × ℚ)) : ℚ := (pts.map Prod.fst).sum / pts.length

/-- Mean of the second coordinates of a point list. -/
def ptsMeanY (pts : List (ℚ × ℚ)) : ℚ := (pts.map Prod.snd).sum / pts.length

/-- Centered second moment of the first coordinates. -/
def ptsSxx (pts : List (ℚ × ℚ)) : ℚ :=
  ∑ k ∈ Finset.range pts.length, ((pts.getD k (0, 0)).1 - ptsMeanX pts) ^ 2

/-- Centered second moment of the second coordinates. -/
def ptsSyy (pts : List (ℚ × ℚ)) : ℚ :=
  ∑ k ∈ Finset.range pts.length, ((pts.getD k (0, 0)).2 - ptsMeanY pts) ^ 2

/-- Centered cross moment of a point list. -/
def ptsSxy (pts : List (ℚ × ℚ)) : ℚ :=
  ∑ k ∈ Finset.range pts.length,
    ((pts.getD k (0, 0)).1 - ptsMeanX pts) * ((pts.getD k (0, 0)).2 - ptsMeanY pts)

/-- Least-squares slope of a point list. -/
def ptsSlope (pts : List (ℚ × ℚ)) : ℚ := ptsSxy pts / ptsSxx pts

/-- Coefficient of determination of the simple linear regression on a
point list, as the squared correlation coefficient. -/
def ptsRsq (pts : List (ℚ × ℚ)) : ℚ := ptsSxy pts ^ 2 / (ptsSxx pts * ptsSyy pts)

/-- Clamp a rational to the unit interval. -/
def clamp01 (q : ℚ) : ℚ := max 0 (min 1 q)

/-- Modelled from the spec: the usable DFA scales, those whose average
fluctuation is strictly positive (so that its logarithm exists), paired
with their fluctuations. -/
def dfaUsable (ops : NumOps) (xs : List ℚ) : List (ℕ × ℚ) :=
  let prof := profile xs
  let scales := dfaScalesList xs.length
  (scales.zip (scales.map (fluctF ops prof))).filter (fun p => 0 < p.2)

/-- The usable DFA scale/fluctuation pairs mapped into log-log space. -/
def dfaPts (ops : NumOps) (xs : List ℚ) : List (ℚ × ℚ) :=
  (dfaUsable ops xs).map (fun p => (ops.log10 (p.1 : ℚ), ops.log10 p.2))

/-- The reported scale list, cast to rationals. -/
def dfaScalesQ (xs : List ℚ) : List ℚ :=
  (dfaScalesList xs.length).map Nat.cast

/-- The reported fluctuation list, one `F(scale)` per scale. -/
def dfaFlucts (ops : NumOps) (xs : List ℚ) : List ℚ :=
  (dfaScalesList xs.length).map (fluctF ops (profile xs))

/-- Modelled from the spec: `calc_dfa` of the missing
`backend/analysis.py`. Returns `(hurst, hurst_r2, dfa_scales,
dfa_fluctuations)`: with fewer than 2 usable scales, `(0.5, 0)`;
otherwise the slope of the log-log regression over the usable scales,
clamped to `[0,1]`, together with its R². The scale and fluctuation
lists are always reported for visualization. -/
def calc_dfa (ops : NumOps) (xs : List ℚ) : ℚ × ℚ × List ℚ × List ℚ :=
  if (dfaUsable ops xs).length < 2 then (1 / 2, 0, dfaScalesQ xs, dfaFlucts ops xs)
  else
    (clamp01 (ptsSlope (dfaPts ops xs)), ptsRsq (dfaPts ops xs),
      dfaScalesQ xs, dfaFlucts ops xs)

/-- Health status classification. -/
inductive Status where
  | normal
  | warning
  | critical
  | noData
deriving DecidableEq, Repr

/-- Modelled from the spec: the `AnalysisConfig` of named thresholds with
defaults; supplied per call, never mutated, alters classification only. -/
structure AnalysisConfig where
  slope_critical : ℚ := 1 / 2
  slope_warning : ℚ := 1 / 10
  bias_critical : ℚ := 5
  bias_warning : ℚ := 2
  noise_critical : ℚ := 2
  hysteresis_critical : ℚ := 1 / 2
  dfa_critical : ℚ := 4 / 5
  min_data_points : ℕ := 5
  failure_boundary : ℚ := 100
deriving DecidableEq, Repr

/-- The default configuration (a `SensorAnalyzer()` built without an
explicit config). -/
def defaultConfig : AnalysisConfig := {}

/-- The descriptor bundle produced by the calculators. -/
structure Metrics where
  bias : ℚ
  slope : ℚ
  noise_std : ℚ
  snr_db : ℚ
  hysteresis : ℚ
  hysteresis_x : List ℚ
  hysteresis_y : List ℚ
  hurst : ℚ
  hurst_r2 : ℚ
  dfa_scales : List ℚ
  dfa_fluctuations : List ℚ
deriving DecidableEq, Repr

/-- The health assessment produced by the scorer. -/
structure Health where
  score : ℚ
  status : Status
  diagnosis : String
  flags : List String
  recommendation : String
deriving DecidableEq, Repr

/-- Modelled from the spec: points deducted for the drift (slope)
descriptor crossing its warning/critical thresholds. -/
def slopeDeduction (cfg : AnalysisConfig) (m : Metrics) : ℚ :=
  if cfg.slope_critical < |m.slope| then 30
  else if cfg.slope_warning < |m.slope| then 15
  else 0

/-- Modelled from the spec: points deducted for the bias descriptor
crossing its warning/critical thresholds. -/
def biasDeduction (cfg : AnalysisConfig) (m : Metrics) : ℚ :=
  if cfg.bias_critical < |m.bias| then 20
  else if cfg.bias_warning < |m.bias| then 10
  else 0

/-- Modelled from the spec: points deducted when the noise descriptor
crosses its critical threshold. -/
def noiseDeduction (cfg : AnalysisConfig) (m : Metrics) : ℚ :=
  if cfg.noise_critical < m.noise_std then 20 else 0

/-- Modelled from the spec: points deducted when the hysteresis descriptor
crosses its critical threshold. -/
def hystDeduction (cfg : AnalysisConfig) (m : Metrics) : ℚ :=
  if cfg.hysteresis_critical < |m.hysteresis| then 15 else 0

/-- Modelled from the spec: points deducted when the Hurst exponent
signals a persistent trend. -/
def dfaDeduction (cfg : AnalysisConfig) (m : Metrics) : ℚ :=
  if cfg.dfa_critical < m.hurst then 15 else 0

/-- Total points deducted from the 100 baseline. -/
def totalDeduction (cfg : AnalysisConfig) (m : Metrics) : ℚ :=
  slopeDeduction cfg m + biasDeduction cfg m + noiseDeduction cfg m +
    hystDeduction cfg m + dfaDeduction cfg m

/-- Modelled from the spec: the health score, deductions from a 100
baseline clamped to `[0, 100]`. -/
def scoreOf (cfg : AnalysisConfig) (m : Metrics) : ℚ :=
  max 0 (min 100 (100 - totalDeduction cfg m))

/-- Modelled from the spec: the flags accumulated as thresholds are
crossed, in a fixed severity order. -/
def flagsOf (cfg : AnalysisConfig) (m : Metrics) : List String :=
  (if cfg.slope_critical < |m.slope| then ["HIGH_DRIFT"] else []) ++
  (if cfg.noise_critical < m.noise_std then ["EXCESSIVE_NOISE"] else []) ++
  (if cfg.hysteresis_critical < |m.hysteresis| then ["HYSTERESIS_DETECTED"] else []) ++
  (if cfg.dfa_critical < m.hurst then ["PERSISTENT_TREND"] else [])

/-- Modelled from the spec: diagnosis text chosen by which flags fired,
ranked by severity so the most critical cause dominates. -/
def diagnosisOf (flags : List String) : String :=
  if "HIGH_DRIFT" ∈ flags then "Significant drift detected"
  else if "EXCESSIVE_NOISE" ∈ flags then "Excessive noise level"
  else if "HYSTERESIS_DETECTED" ∈ flags then "Hysteresis detected"
  else if "PERSISTENT_TREND" ∈ flags then "Persistent trend detected"
  else "Sensor operating normally"

/-- Modelled from the spec: recommendation text chosen by which flags
fired, ranked by severity. -/
def recommendationOf (flags : List String) : String :=
  if "HIGH_DRIFT" ∈ flags then "Recalibrate the sensor"
  else if "EXCESSIVE_NOISE" ∈ flags then "Inspect signal path and shielding"
  else if "HYSTERESIS_DETECTED" ∈ flags then "Inspect the sensing element"
  else if "PERSISTENT_TREND" ∈ flags then "Schedule maintenance review"
  else "No action required"

/-- Modelled from the spec: `get_health_score` of the missing
`backend/analysis.py`. Deducts points from a 100 baseline per descriptor
threshold crossing, clamps the score to `[0,100]`, and derives the status
from fixed score bands (≥ 85 Normal, 60–84 Warning, < 60 Critical). -/
def get_health_score (cfg : AnalysisConfig) (m : Metrics) : Health :=
  let s := scoreOf cfg m
  let fl := flagsOf cfg m
  { score := s
    status := if 85 ≤ s then Status.normal
              else if 60 ≤ s then Status.warning
              else Status.critical
    diagnosis := diagnosisOf fl
    flags := fl
    recommendation := recommendationOf fl }

/-- Remaining-useful-life estimate: either the "N/A" text or a
human-readable phrase rendered from the extrapolated horizon
`distance / |slope|` (the rendering to text is abstracted; what matters
is that a phrase is never the "N/A" text). -/
inductive RulEstimate where
  | na
  | phrase (horizon : ℚ)
deriving DecidableEq, Repr

/-- Near-zero epsilon below which a slope gives no projectable horizon. -/
def rulEps : ℚ := 1 / 1000

/-- Last observed value of a series (0 for the empty series). -/
def lastValue (xs : List ℚ) : ℚ := xs.getLast?.getD 0

/-- Modelled from the spec: `calc_rul` of the missing
`backend/analysis.py`. If `|slope|` is below a near-zero epsilon, return
"N/A"; otherwise linearly extrapolate from the last observed value toward
the configured failure boundary using `distance / |slope|`. -/
def calc_rul (cfg : AnalysisConfig) (xs : List ℚ) (slope : ℚ) : RulEstimate :=
  if |slope| < rulEps then RulEstimate.na
  else RulEstimate.phrase (|cfg.failure_boundary - lastValue xs| / |slope|)

/-- A raw reading: `none` models a missing or non-finite entry (NaN/inf in
the Python float series). -/
abbrev RawSeries := List (Option ℚ)

/-- Modelled from the spec: the signal preprocessor (`preprocessing` of the
missing `backend/analysis.py`): drops missing/non-finite entries, keeps
order, pure. -/
def preprocessing (raw : RawSeries) : List ℚ := raw.filterMap id

/-- Modelled from the spec: the full descriptor bundle computed by the
facade path, one call per calculator (noise per §4.2: residual std). -/
def computeMetrics (ops : NumOps) (clean : List ℚ) : Metrics :=
  let hy := calc_hysteresis clean
  let df := calc_dfa ops clean
  { bias := calc_bias clean
    slope := calc_slope clean
    noise_std := ops.sqrt (resVar clean)
    snr_db := calc_snr_db ops clean
    hysteresis := hy.1
    hysteresis_x := hy.2.1
    hysteresis_y := hy.2.2
    hurst := df.1
    hurst_r2 := df.2.1
    dfa_scales := df.2.2.1
    dfa_fluctuations := df.2.2.2 }

/-- The combined output of one `analyze` call. -/
structure AnalysisOutput where
  metrics : Metrics
  health : Health
  prediction : RulEstimate
deriving DecidableEq, Repr

/-- The empty/zero assessment returned on insufficient data, mirroring the
empty result literal of `backend/api/routes/analytics.py` (bias 0, slope
0, noise 0, snr 0, hysteresis 0, hurst 0.5, r2 0, all lists empty, score
0, status "No Data", prediction "N/A"). -/
def noDataOutput : AnalysisOutput :=
  { metrics :=
      { bias := 0, slope := 0, noise_std := 0, snr_db := 0, hysteresis := 0
        hysteresis_x := [], hysteresis_y := [], hurst := 1 / 2, hurst_r2 := 0
        dfa_scales := [], dfa_fluctuations := [] }
    health :=
      { score := 0, status := Status.noData
        diagnosis := "Insufficient data for analysis"
        flags := []
        recommendation := "Ingest more data points" }
    prediction := RulEstimate.na }

/-- Modelled from the spec: the orchestrator `analyze` of the missing
`backend/analysis.py` (§4.5): preprocess, short-circuit to the "No Data"
assessment when the cleaned length is below the configured minimum
without invoking the descriptor calculators, otherwise run every
calculator and feed the bundle to the scorer and RUL estimator. -/
def analyze (ops : NumOps) (cfg : AnalysisConfig) (raw : RawSeries) : AnalysisOutput :=
  let clean := preprocessing raw
  if clean.length < cfg.min_data_points then noDataOutput
  else
    let m := computeMetrics ops clean
    { metrics := m
      health := get_health_score cfg m
      prediction := calc_rul cfg clean m.slope }

/-- The inline duplicate metric path of `backend/main.py` (`analyze_sensor`,
lines 236–254) and of `run_background_analysis`: the same calculators, but
`noise_std = float(np.std(clean_data))`, the deviation of the cleaned
series itself rather than of the detrended residual. -/
def inlineMetrics (ops : NumOps) (clean : List ℚ) : Metrics :=
  { computeMetrics ops clean with noise_std := ops.sqrt (npVar clean) }

/-- The success path of `backend/main.py`'s `/analyze` route: preprocess,
inline metrics, scorer and RUL, with no short-circuit on length. -/
def inlineAnalysis (ops : NumOps) (values : RawSeries) : AnalysisOutput :=
  let clean := preprocessing values
  let m := inlineMetrics ops clean
  { metrics := m
    health := get_health_score defaultConfig m
    prediction := calc_rul defaultConfig clean m.slope }

/-- The `/analyze` route of `backend/main.py` (lines 205–277): when no
values are provided it fetches the latest window from the store
(`dbChron`, already reversed to chronological order) and, if fewer than 5
values are found, raises `HTTPException(status_code=404, ...)` — embedded
as `Except.error 404`; otherwise it runs the inline analysis path. -/
def mainAnalyzeRoute (ops : NumOps) (provided dbChron : RawSeries) :
    Except ℕ AnalysisOutput :=
  if provided.isEmpty then
    if dbChron.length < 5 then Except.error 404
    else Except.ok (inlineAnalysis ops dbChron)
  else Except.ok (inlineAnalysis ops provided)

/-- The `/analyze` route of `backend/api/routes/analytics.py` (lines
145–307): when no values are provided it fetches from the store and, if
fewer than 5 values are found, returns the well-formed empty "No Data"
assessment with HTTP 200; otherwise it calls the `analyze` facade. -/
def analyticsAnalyzeRoute (ops : NumOps) (provided dbChron : RawSeries) :
    Except ℕ AnalysisOutput :=
  if provided.isEmpty then
    if dbChron.length < 5 then Except.ok noDataOutput
    else Except.ok (analyze ops defaultConfig dbChron)
  else Except.ok (analyze ops defaultConfig provided)

/-- Execution context of a Celery worker invocation: which worker/task is
running, how often it was retried, and the wall clock it would stamp into
`completed_at` — everything an invocation could depend on besides its
input. -/
structure TaskCtx where
  taskId : String
  retries : ℕ
  nowIso : String
deriving DecidableEq, Repr

/-- The record returned by `analyze_sensor_data` of
`backend/tasks/analysis_tasks.py` on success. -/
structure TaskResult where
  success : Bool
  sensorId : String
  taskId : String
  completedAt : String
  result : AnalysisOutput
deriving DecidableEq, Repr

/-- The Celery task `analyze_sensor_data` of
`backend/tasks/analysis_tasks.py` (lines 30–113): builds a fresh default
`SensorAnalyzer()` (the `config` argument is accepted but not passed to
it), calls `analyze(raw_data=values)`, and wraps the result with
task-context metadata. -/
def analyze_sensor_data (ops : NumOps) (ctx : TaskCtx) (sensorId : String)
    (values : RawSeries) (config : Option AnalysisConfig) : TaskResult :=
  { success := true
    sensorId := sensorId
    taskId := ctx.taskId
    completedAt := ctx.nowIso
    result := analyze ops defaultConfig values }

/-- A stored sensor reading, reduced to `(timestamp, value)`. -/
abbrev Reading := ℚ × ℚ

/-- The latest-N fetch of `backend/main.py` and
`backend/api/routes/analytics.py`: the store returns readings ordered by
timestamp descending (`order_by(desc(SensorReading.timestamp))`, modelled
as a merge sort by descending timestamp) limited to `n`. -/
def fetchLatestDesc (store : List Reading) (n : ℕ) : List Reading :=
  (store.mergeSort (fun a b => decide (b.1 ≤ a.1))).take n

/-- The reading sequence handed to the engine: the fetched window after
`reversed(readings)` restores chronological order. -/
def chronWindow (store : List Reading) (n : ℕ) : List Reading :=
  (fetchLatestDesc store n).reverse

/-! ## Helper lemmas -/

theorem replicate_getD {α : Type} (n : ℕ) (a d : α) (i : ℕ) (h : i < n) :
    (List.replicate n a).getD i d = a := by
  simp [List.getD_eq_getElem?_getD, List.getElem?_replicate, h]

theorem listMean_replicate (n : ℕ) (c : ℚ) (h : n ≠ 0) :
    listMean (List.replicate n c) = c := by
  have hn : ((n : ℚ)) ≠ 0 := Nat.cast_ne_zero.mpr h
  simp [listMean, List.sum_replicate, nsmul_eq_mul]
  field_simp

theorem sxyOf_replicate (n : ℕ) (c : ℚ) : sxyOf (List.replicate n c) = 0 := by
  cases n with
  | zero => simp [sxyOf]
  | succ m =>
    unfold sxyOf
    apply Finset.sum_eq_zero
    intro i hi
    rw [List.length_replicate] at hi
    rw [replicate_getD _ _ _ _ (Finset.mem_range.mp hi),
      listMean_replicate _ _ (Nat.succ_ne_zero m)]
    ring

theorem calc_slope_replicate (n : ℕ) (c : ℚ) :
    calc_slope (List.replicate n c) = 0 := by
  rw [calc_slope, sxyOf_replicate, zero_div]

theorem resVar_replicate (n : ℕ) (c : ℚ) : resVar (List.replicate n c) = 0 := by
  cases n with
  | zero => simp [resVar]
  | succ m =>
    unfold resVar
    rw [Finset.sum_eq_zero, zero_div]
    intro i hi
    rw [List.length_replicate] at hi
    rw [replicate_getD _ _ _ _ (Finset.mem_range.mp hi),
      listMean_replicate _ _ (Nat.succ_ne_zero m), calc_slope_replicate]
    ring

theorem clamp01_nonneg (q : ℚ) : 0 ≤ clamp01 q := le_max_left 0 _

theorem clamp01_le_one (q : ℚ) : clamp01 q ≤ 1 :=
  max_le (by norm_num) (min_le_left 1 q)

theorem ptsSxx_nonneg (pts : List (ℚ × ℚ)) : 0 ≤ ptsSxx pts :=
  Finset.sum_nonneg fun _ _ => sq_nonneg _

theorem ptsSyy_nonneg (pts : List (ℚ × ℚ)) : 0 ≤ ptsSyy pts :=
  Finset.sum_nonneg fun _ _ => sq_nonneg _

theorem ptsRsq_nonneg (pts : List (ℚ × ℚ)) : 0 ≤ ptsRsq pts := by
  unfold ptsRsq
  rcases eq_or_lt_of_le (mul_nonneg (ptsSxx_nonneg pts) (ptsSyy_nonneg pts)) with h | h
  · rw [← h, div_zero]
  · exact div_nonneg (sq_nonneg _) h.le

theorem ptsRsq_le_one (pts : List (ℚ × ℚ)) : ptsRsq pts ≤ 1 := by
  unfold ptsRsq
  rcases eq_or_lt_of_le (mul_nonneg (ptsSxx_nonneg pts) (ptsSyy_nonneg pts)) with h | h
  · rw [← h, div_zero]; norm_num
  · rw [div_le_one h]
    have := Finset.sum_mul_sq_le_sq_mul_sq (Finset.range pts.length)
      (fun k => (pts.getD k (0, 0)).1 - ptsMeanX pts)
      (fun k => (pts.getD k (0, 0)).2 - ptsMeanY pts)
    simpa [ptsSxy, ptsSxx, ptsSyy] using this

theorem slope_mul_sxy (xs : List ℚ) :
    calc_slope xs * sxyOf xs = calc_slope xs ^ 2 * sxxOf xs := by
  by_cases hs : sxxOf xs = 0
  · simp [calc_slope, hs]
  · rw [calc_slope]
    field_simp
    ring

theorem resVar_sum_expand (xs : List ℚ) :
    (∑ i ∈ Finset.range xs.length,
      ((xs.getD i 0 - listMean xs) - calc_slope xs * ((i : ℚ) - idxMean xs)) ^ 2) =
    syyOf xs - 2 * calc_slope xs * sxyOf xs + calc_slope xs ^ 2 * sxxOf xs := by
  have h : ∀ i ∈ Finset.range xs.length,
      ((xs.getD i 0 - listMean xs) - calc_slope xs * ((i : ℚ) - idxMean xs)) ^ 2 =
      (xs.getD i 0 - listMean xs) ^ 2 -
        (2 * calc_slope xs) * (((i : ℚ) - idxMean xs) * (xs.getD i 0 - listMean xs)) +
        (calc_slope xs ^ 2) * (((i : ℚ) - idxMean xs) ^ 2) := by
    intro i _
    ring
  rw [Finset.sum_congr rfl h, Finset.sum_add_distrib, Finset.sum_sub_distrib,
    ← Finset.mul_sum, ← Finset.mul_sum]
  rw [syyOf, sxyOf, sxxOf]

theorem lagPoints_replicate (n : ℕ) (c : ℚ) :
    lagPoints (List.replicate n c) = List.replicate (n - 1) (c, c) := by
  simp [lagPoints]

theorem shoelace_replicate (m : ℕ) (p : ℚ × ℚ) :
    shoelace (List.replicate m p) = 0 := by
  unfold shoelace
  rw [Finset.sum_eq_zero, zero_div]
  intro k hk
  rw [List.length_replicate] at hk ⊢
  have hk' := Finset.mem_range.mp hk
  have hm : 0 < m := lt_of_le_of_lt (Nat.zero_le k) hk'
  rw [replicate_getD _ _ _ _ hk', replicate_getD _ _ _ _ (Nat.mod_lt _ hm)]
  simp [crossTerm]

theorem hysteresis_replicate (n : ℕ) (c : ℚ) :
    (calc_hysteresis (List.replicate n c)).1 = 0 := by
  simp only [calc_hysteresis, lagPoints_replicate, shoelace_replicate, zero_div]

theorem profile_replicate (n : ℕ) (c : ℚ) :
    profile (List.replicate n c) = List.replicate n 0 := by
  unfold profile
  rw [List.length_replicate]
  rw [List.map_congr_left (g := fun _ => (0 : ℚ)), List.map_const', List.length_range]
  intro k hk
  apply Finset.sum_eq_zero
  intro j hj
  have hkn := List.mem_range.mp hk
  have hjn : j < n := lt_of_lt_of_le (Finset.mem_range.mp hj) hkn
  have hn : n ≠ 0 := fun h => absurd (h ▸ hkn) (Nat.not_lt_zero k)
  rw [replicate_getD _ _ _ _ hjn, listMean_replicate _ _ hn]
  ring

theorem fluctF_replicate_zero (ops : NumOps) (hsq : ops.sqrt 0 = 0) (n s : ℕ) :
    fluctF ops (List.replicate n (0 : ℚ)) s = 0 := by
  unfold fluctF
  rw [Finset.sum_eq_zero, zero_div]
  intro w _
  unfold windowRms windowSeg
  rw [List.drop_replicate, List.take_replicate, resVar_replicate, hsq]

theorem dfaUsable_replicate (ops : NumOps) (hsq : ops.sqrt 0 = 0) (n : ℕ) (c : ℚ) :
    dfaUsable ops (List.replicate n c) = [] := by
  unfold dfaUsable
  rw [List.filter_eq_nil_iff]
  intro p hp
  have h2 := (List.of_mem_zip hp).2
  rw [profile_replicate] at h2
  obtain ⟨s, _, hfs⟩ := List.mem_map.mp h2
  rw [fluctF_replicate_zero ops hsq] at hfs
  rw [← hfs]
  simp

theorem calc_dfa_replicate (ops : NumOps) (hsq : ops.sqrt 0 = 0) (n : ℕ) (c : ℚ) :
    (calc_dfa ops (List.replicate n c)).1 = 1 / 2 ∧
      (calc_dfa ops (List.replicate n c)).2.1 = 0 := by
  have h : (dfaUsable ops (List.replicate n c)).length < 2 := by
    rw [dfaUsable_replicate ops hsq]
    simp
  rw [calc_dfa, if_pos h]
  exact ⟨rfl, rfl⟩

/-! ## Claim theorems -/

/-- C1: for every input series whose cleaned length is below 5 points, the
`analyze` operation returns the well-formed assessment with status "No
Data", health score 0, RUL prediction "N/A" and every list-valued
descriptor empty — it short-circuits to the constant `noDataOutput`,
which mentions no descriptor calculator. -/
theorem analyze_short_input_no_data (ops : NumOps) (raw : RawSeries)
    (h : (preprocessing raw).length < 5) :
    (analyze ops defaultConfig raw).health.status = Status.noData ∧
    (analyze ops defaultConfig raw).health.score = 0 ∧
    (analyze ops defaultConfig raw).prediction = RulEstimate.na ∧
    (analyze ops defaultConfig raw).metrics.hysteresis_x = [] ∧
    (analyze ops defaultConfig raw).metrics.hysteresis_y = [] ∧
    (analyze ops defaultConfig raw).metrics.dfa_scales = [] ∧
    (analyze ops defaultConfig raw).metrics.dfa_fluctuations = [] ∧
    analyze ops defaultConfig raw = noDataOutput := by
  have hcond : (preprocessing raw).length < defaultConfig.min_data_points := h
  have he : analyze ops defaultConfig raw = noDataOutput := by
    simp only [analyze, if_pos hcond]
  rw [he]
  exact ⟨rfl, rfl, rfl, rfl, rfl, rfl, rfl, rfl⟩

/-- Witness for C1 at the concrete raw series `[1, NaN, 2, 3]` (cleaned
length 3). -/
theorem analyze_short_input_no_data_witness :
    (preprocessing [some 1, none, some 2, some 3]).length < 5 ∧
    ((analyze idOps defaultConfig [some 1, none, some 2, some 3]).health.status =
        Status.noData ∧
      (analyze idOps defaultConfig [some 1, none, some 2, some 3]).health.score = 0 ∧
      (analyze idOps defaultConfig [some 1, none, some 2, some 3]).prediction =
        RulEstimate.na ∧
      (analyze idOps defaultConfig [some 1, none, some 2, some 3]).metrics.hysteresis_x = [] ∧
      (analyze idOps defaultConfig [some 1, none, some 2, some 3]).metrics.hysteresis_y = [] ∧
      (analyze idOps defaultConfig [some 1, none, some 2, some 3]).metrics.dfa_scales = [] ∧
      (analyze idOps defaultConfig [some 1, none, some 2, some 3]).metrics.dfa_fluctuations = [] ∧
      analyze idOps defaultConfig [some 1, none, some 2, some 3] = noDataOutput) :=
  ⟨by decide, analyze_short_input_no_data idOps [some 1, none, some 2, some 3] (by decide)⟩

/-- C2 counterexample: in `backend/main.py`'s `/analyze` route, a fetch
that finds only 3 readings (cleaned length 3, the insufficient-data
condition) is propagated to the caller as an HTTP 404 failure instead of
a "No Data" assessment. -/
theorem main_route_short_fetch_propagates_404 :
    (preprocessing [some 1, some 2, some 3]).length < 5 ∧
    mainAnalyzeRoute idOps [] [some 1, some 2, some 3] = Except.error 404 :=
  ⟨by decide, rfl⟩

/-- C2 amended: the analytics router (`backend/api/routes/analytics.py`)
recovers the insufficient-data condition locally — it never returns an
error, and a short fetch yields the well-formed "No Data" assessment. -/
theorem analytics_route_recovers_no_data (ops : NumOps) (provided dbChron : RawSeries) :
    (∃ out, analyticsAnalyzeRoute ops provided dbChron = Except.ok out) ∧
    (provided = [] → dbChron.length < 5 →
      analyticsAnalyzeRoute ops provided dbChron = Except.ok noDataOutput) := by
  unfold analyticsAnalyzeRoute
  by_cases hp : provided.isEmpty = true
  · rw [if_pos hp]
    by_cases hd : dbChron.length < 5
    · rw [if_pos hd]
      exact ⟨⟨noDataOutput, rfl⟩, fun _ _ => rfl⟩
    · rw [if_neg hd]
      exact ⟨⟨_, rfl⟩, fun _ hd2 => absurd hd2 hd⟩
  · rw [if_neg hp]
    refine ⟨⟨_, rfl⟩, ?_⟩
    intro hpe _
    subst hpe
    exact absurd rfl hp

/-- Witness for C2's amended theorem: an empty request over a store with
a single reading yields the "No Data" assessment with no error. -/
theorem analytics_route_recovers_no_data_witness :
    ([] : RawSeries) = [] ∧ ([some 1] : RawSeries).length < 5 ∧
    analyticsAnalyzeRoute idOps [] [some 1] = Except.ok noDataOutput :=
  ⟨rfl, by decide, (analytics_route_recovers_no_data idOps [] [some 1]).2 rfl (by decide)⟩

/-- C4: the Celery task's analysis result is a pure function of the input
series (and config); it does not depend on the execution context — task
id, retry count, wall clock, call order or worker — so two invocations on
bit-identical input produce bit-identical descriptor, health and RUL
output. -/
theorem task_result_deterministic (ops : NumOps) (c1 c2 : TaskCtx) (sid : String)
    (values : RawSeries) (cfg : Option AnalysisConfig) :
    (analyze_sensor_data ops c1 sid values cfg).result =
      (analyze_sensor_data ops c2 sid values cfg).result ∧
    (analyze_sensor_data ops c1 sid values cfg).success = true :=
  ⟨rfl, rfl⟩

/-- C5: the health score lies in `[0, 100]` and the status is determined
solely by the fixed score bands: ≥ 85 Normal, 60–84 Warning, below 60
Critical. -/
theorem health_score_bounds_and_bands (cfg : AnalysisConfig) (m : Metrics) :
    0 ≤ (get_health_score cfg m).score ∧ (get_health_score cfg m).score ≤ 100 ∧
    (get_health_score cfg m).status =
      (if 85 ≤ (get_health_score cfg m).score then Status.normal
       else if 60 ≤ (get_health_score cfg m).score then Status.warning
       else Status.critical) := by
  refine ⟨?_, ?_, rfl⟩
  · show (0 : ℚ) ≤ max 0 (min 100 (100 - totalDeduction cfg m))
    exact le_max_left _ _
  · show max 0 (min 100 (100 - totalDeduction cfg m)) ≤ 100
    exact max_le (by norm_num) (min_le_left _ _)

/-- C8: monotone severity of the scorer in the noise descriptor — with all
other descriptors equal, a larger noise level never yields a larger
health score. -/
theorem score_monotone_in_noise (cfg : AnalysisConfig) (m : Metrics) (v : ℚ)
    (h : m.noise_std ≤ v) :
    (get_health_score cfg { m with noise_std := v }).score ≤
      (get_health_score cfg m).score := by
  have h5 : noiseDeduction cfg m ≤ noiseDeduction cfg { m with noise_std := v } := by
    show (if cfg.noise_critical < m.noise_std then (20 : ℚ) else 0) ≤
      (if cfg.noise_critical < v then (20 : ℚ) else 0)
    by_cases hc : cfg.noise_critical < m.noise_std
    · rw [if_pos hc, if_pos (lt_of_lt_of_le hc h)]
    · rw [if_neg hc]
      split_ifs <;> norm_num
  have hded : totalDeduction cfg m ≤ totalDeduction cfg { m with noise_std := v } := by
    unfold totalDeduction
    have h1 : slopeDeduction cfg { m with noise_std := v } = slopeDeduction cfg m := rfl
    have h2 : biasDeduction cfg { m with noise_std := v } = biasDeduction cfg m := rfl
    have h3 : hystDeduction cfg { m with noise_std := v } = hystDeduction cfg m := rfl
    have h4 : dfaDeduction cfg { m with noise_std := v } = dfaDeduction cfg m := rfl
    rw [h1, h2, h3, h4]
    linarith
  show max 0 (min 100 (100 - totalDeduction cfg { m with noise_std := v })) ≤
    max 0 (min 100 (100 - totalDeduction cfg m))
  exact max_le_max (le_refl 0)
    (min_le_min (le_refl 100) (by linarith))

/-- A concrete descriptor bundle used to instantiate hypothesis-bearing
theorems on explicit inputs. -/
def exampleMetrics : Metrics :=
  { bias := 1, slope := 0, noise_std := 1, snr_db := 40, hysteresis := 0
    hysteresis_x := [], hysteresis_y := [], hurst := 1 / 2, hurst_r2 := 1
    dfa_scales := [], dfa_fluctuations := [] }

/-- Witness for C8 at a concrete bundle: raising the noise descriptor from
1 to 3 does not raise the score. -/
theorem score_monotone_in_noise_witness :
    exampleMetrics.noise_std ≤ 3 ∧
    (get_health_score defaultConfig { exampleMetrics with noise_std := 3 }).score ≤
      (get_health_score defaultConfig exampleMetrics).score :=
  ⟨by decide, score_monotone_in_noise defaultConfig exampleMetrics 3 (by decide)⟩

/-- C9: the RUL estimator returns "N/A" exactly when `|slope|` is below
the near-zero epsilon; otherwise it returns the phrase obtained by
linearly extrapolating from the last observed value toward the configured
failure boundary using `distance / |slope|`. -/
theorem rul_na_iff_flat_slope (cfg : AnalysisConfig) (xs : List ℚ) (s : ℚ) :
    (calc_rul cfg xs s = RulEstimate.na ↔ |s| < rulEps) ∧
    (rulEps ≤ |s| → calc_rul cfg xs s =
      RulEstimate.phrase (|cfg.failure_boundary - lastValue xs| / |s|)) := by
  by_cases h : |s| < rulEps
  · refine ⟨?_, fun hge => absurd h (not_lt.mpr hge)⟩
    rw [calc_rul, if_pos h]
    simp [h]
  · refine ⟨?_, fun _ => by rw [calc_rul, if_neg h]⟩
    rw [calc_rul, if_neg h]
    simp [h]

/-- Witness for C9 at slope 1 over the series `[1, 2]` with the default
configuration (failure boundary 100): horizon `|100 - 2| / 1 = 98`. -/
theorem rul_na_iff_flat_slope_witness :
    rulEps ≤ |(1 : ℚ)| ∧
    calc_rul defaultConfig [1, 2] 1 = RulEstimate.phrase 98 := by
  refine ⟨by norm_num [rulEps], ?_⟩
  have h := (rul_na_iff_flat_slope defaultConfig [1, 2] 1).2 (by norm_num [rulEps])
  rw [h]
  norm_num [defaultConfig, lastValue]

/-- C10: readings fetched in latest-N mode come back newest-first (ordered
by timestamp descending, limited to `n`) and the route reverses them, so
the window handed to the engine is in ascending-timestamp order. -/
theorem fetched_window_chronological (store : List Reading) (n : ℕ) :
    List.Sorted (fun a b : Reading => a.1 ≤ b.1) (chronWindow store n) := by
  have hs : List.Pairwise (fun a b : Reading => (decide (b.1 ≤ a.1)) = true)
      (store.mergeSort (fun a b => decide (b.1 ≤ a.1))) := by
    have h0 := @List.sorted_mergeSort Reading
      (fun a b : Reading => decide (b.1 ≤ a.1))
      (fun a b c h1 h2 => by
        simp only [decide_eq_true_eq] at h1 h2 ⊢
        exact le_trans h2 h1)
      (fun a b => by
        simp only [Bool.or_eq_true, decide_eq_true_eq]
        exact le_total b.1 a.1)
      store
    exact h0
  have ht : List.Pairwise (fun a b : Reading => (decide (b.1 ≤ a.1)) = true)
      (fetchLatestDesc store n) :=
    List.Pairwise.sublist (List.take_sublist n _) hs
  show List.Pairwise (fun a b : Reading => a.1 ≤ b.1) ((fetchLatestDesc store n).reverse)
  rw [List.pairwise_reverse]
  exact ht.imp (fun h => of_decide_eq_true h)

/-- C3 counterexample: at the cleaned linear ramp `[0, 1, 2, 3, 4]` the
reported noise value of the inline paths (`noise_std =
float(np.std(clean_data))` in `backend/main.py` line 242 and
`backend/api/routes/analytics.py` line 105) has square `npVar = 2`, while
the residual after removing the least-squares fit is identically zero
(`resVar = 0`). Since a standard deviation is the nonnegative square root
of its variance, `np.std = √2 ≠ 0 =` residual std: the reported
`noise_std` is not the standard deviation of the detrended residual. -/
theorem reported_noise_not_residual_cex :
    npVar [0, 1, 2, 3, 4] = 2 ∧ resVar [0, 1, 2, 3, 4] = 0 ∧
    npVar [0, 1, 2, 3, 4] ≠ resVar [0, 1, 2, 3, 4] := by
  have h1 : npVar [0, 1, 2, 3, 4] = 2 := by
    norm_num [npVar, syyOf, listMean, Finset.sum_range_succ]
  have h2 : resVar [0, 1, 2, 3, 4] = 0 := by
    norm_num [resVar, calc_slope, sxyOf, sxxOf, listMean, idxMean,
      Finset.sum_range_succ]
  exact ⟨h1, h2, by rw [h1, h2]; norm_num⟩

/-- C3 amended: the reported `noise_std` of the inline paths is the
standard deviation of the cleaned series itself (`np.std`), not of the
detrended residual; its square decomposes as residual variance plus the
variance explained by the fitted slope, so it coincides with the
residual-based value exactly in the zero-slope case and never
undershoots it. (`snr_db` itself, computed by the spec-modelled
`calc_snr_db`, uses `20·log10(amplitude / noise_std)` with the 100 dB
sentinel.) -/
theorem noise_variance_decomposition (xs : List ℚ) :
    npVar xs = resVar xs + calc_slope xs ^ 2 * idxVar xs ∧
    resVar xs ≤ npVar xs := by
  have hb := slope_mul_sxy xs
  have hmain : npVar xs = resVar xs + calc_slope xs ^ 2 * idxVar xs := by
    unfold npVar resVar idxVar
    rw [resVar_sum_expand xs, ← mul_div_assoc, div_add_div_same]
    congr 1
    linear_combination 2 * hb
  have hx : 0 ≤ calc_slope xs ^ 2 * idxVar xs := by
    apply mul_nonneg (sq_nonneg _)
    unfold idxVar sxxOf
    exact div_nonneg (Finset.sum_nonneg fun _ _ => sq_nonneg _) (Nat.cast_nonneg _)
  exact ⟨hmain, by linarith⟩

/-- C6: bundle invariants — `hurst ∈ [0,1]`, `hurst_r2 ∈ [0,1]`, the two
hysteresis polyline lists have equal length, the DFA scale and
fluctuation lists have equal length, and with fewer than 2 usable scales
the result degenerates to `hurst = 0.5`, `r2 = 0`. -/
theorem descriptor_bundle_invariants (ops : NumOps) (xs : List ℚ) :
    0 ≤ (calc_dfa ops xs).1 ∧ (calc_dfa ops xs).1 ≤ 1 ∧
    0 ≤ (calc_dfa ops xs).2.1 ∧ (calc_dfa ops xs).2.1 ≤ 1 ∧
    (calc_hysteresis xs).2.1.length = (calc_hysteresis xs).2.2.length ∧
    (calc_dfa ops xs).2.2.1.length = (calc_dfa ops xs).2.2.2.length ∧
    ((dfaUsable ops xs).length < 2 →
      (calc_dfa ops xs).1 = 1 / 2 ∧ (calc_dfa ops xs).2.1 = 0) := by
  have hhyst : (calc_hysteresis xs).2.1.length = (calc_hysteresis xs).2.2.length := by
    simp [calc_hysteresis, List.length_tail]
  have hlen : (calc_dfa ops xs).2.2.1.length = (calc_dfa ops xs).2.2.2.length := by
    unfold calc_dfa
    split_ifs <;> simp only [dfaScalesQ, dfaFlucts, List.length_map]
  refine ⟨?_, ?_, ?_, ?_, hhyst, hlen, fun h => ?_⟩
  · unfold calc_dfa
    split_ifs with hc
    · norm_num
    · exact clamp01_nonneg _
  · unfold calc_dfa
    split_ifs with hc
    · norm_num
    · exact clamp01_le_one _
  · unfold calc_dfa
    split_ifs with hc
    · norm_num
    · exact ptsRsq_nonneg _
  · unfold calc_dfa
    split_ifs with hc
    · norm_num
    · exact ptsRsq_le_one _
  · rw [calc_dfa, if_pos h]
    exact ⟨rfl, rfl⟩

/-- Witness for C6 on the constant series of length 6 (no usable scales,
so the degenerate branch applies). -/
theorem descriptor_bundle_invariants_witness :
    (dfaUsable idOps (List.replicate 6 1)).length < 2 ∧
    ((calc_dfa idOps (List.replicate 6 1)).1 = 1 / 2 ∧
      (calc_dfa idOps (List.replicate 6 1)).2.1 = 0) := by
  have hu : (dfaUsable idOps (List.replicate 6 1)).length < 2 := by
    rw [dfaUsable_replicate idOps rfl]
    decide
  exact ⟨hu,
    (descriptor_bundle_invariants idOps (List.replicate 6 1)).2.2.2.2.2.2 hu⟩

/-- C7: on a constant series of sufficient length the calculators return
the documented degenerate values rather than raising: slope 0,
hysteresis 0, noise_std 0, snr_db at the sentinel ceiling, hurst 0.5,
hurst_r2 0. -/
theorem constant_series_degenerate (ops : NumOps) (n : ℕ) (c : ℚ)
    (hn : 5 ≤ n) (hsq : ops.sqrt 0 = 0) :
    (computeMetrics ops (List.replicate n c)).slope = 0 ∧
    (computeMetrics ops (List.replicate n c)).hysteresis = 0 ∧
    (computeMetrics ops (List.replicate n c)).noise_std = 0 ∧
    (computeMetrics ops (List.replicate n c)).snr_db = snrCeiling ∧
    (computeMetrics ops (List.replicate n c)).hurst = 1 / 2 ∧
    (computeMetrics ops (List.replicate n c)).hurst_r2 = 0 := by
  have hres := resVar_replicate n c
  refine ⟨calc_slope_replicate n c, ?_, ?_, ?_, ?_, ?_⟩
  · show (calc_hysteresis (List.replicate n c)).1 = 0
    exact hysteresis_replicate n c
  · show ops.sqrt (resVar (List.replicate n c)) = 0
    rw [hres, hsq]
  · show calc_snr_db ops (List.replicate n c) = snrCeiling
    have hlt : resVar (List.replicate n c) < snrVarEps := by
      rw [hres]
      norm_num [snrVarEps]
    rw [calc_snr_db, if_pos hlt]
  · show (calc_dfa ops (List.replicate n c)).1 = 1 / 2
    exact (calc_dfa_replicate ops hsq n c).1
  · show (calc_dfa ops (List.replicate n c)).2.1 = 0
    exact (calc_dfa_replicate ops hsq n c).2

/-- Witness for C7 on the constant series of 6 copies of 3. -/
theorem constant_series_degenerate_witness :
    5 ≤ 6 ∧ idOps.sqrt 0 = 0 ∧
    ((computeMetrics idOps (List.replicate 6 3)).slope = 0 ∧
      (computeMetrics idOps (List.replicate 6 3)).hysteresis = 0 ∧
      (computeMetrics idOps (List.replicate 6 3)).noise_std = 0 ∧
      (computeMetrics idOps (List.replicate 6 3)).snr_db = snrCeiling ∧
      (computeMetrics idOps (List.replicate 6 3)).hurst = 1 / 2 ∧
      (computeMetrics idOps (List.replicate 6 3)).hurst_r2 = 0) :=
  ⟨by decide, rfl, constant_series_degenerate idOps 6 3 (by decide) rfl⟩
